import Mathlib

/-!
Shallow embedding of the external-computation bridge in
src-tauri/src/lib.rs: backend directory discovery, per-operation
argument encoding, subprocess invocation and the uniform
success/data/error result envelope, plus the interactive export flow.

Fallible external effects (filesystem existence checks, temp-file
writes, child-process spawning, the save/pick dialog) are modelled as
an explicit environment `Env`; each Tauri command becomes a function of
that environment returning the Rust command result
(`Except String PythonResult`, since commands return
`Result<PythonResult, String>`) together with the list of child
processes it spawned.
-/

/-- Filesystem paths as the bridge builds them: an opaque base directory
plus joined components. `child p n` models `p.join(n)`; a `root` path has
no parent, mirroring `PathBuf::parent` returning `None` at the top. -/
inductive FsPath where
  | root (name : String)
  | child (dir : FsPath) (name : String)
deriving DecidableEq, Repr

/-- Models `PathBuf::parent`. -/
def FsPath.parent : FsPath → Option FsPath
  | .root _ => none
  | .child p _ => some p

/-- Unix-style rendering of a path, for error messages. -/
def pathStr : FsPath → String
  | .root s => s
  | .child p n => pathStr p ++ "/" ++ n

/-- Models the Debug formatting of a `PathBuf`, which wraps the path text
in double quotes. -/
def pathDebug (p : FsPath) : String := "\"" ++ pathStr p ++ "\""

/-- The uniform result envelope returned by every bridge operation
(struct `PythonResult` in lib.rs). -/
structure PythonResult where
  success : Bool
  data : Option String
  error : Option String
deriving DecidableEq, Repr

/-- Helper `create_error_result` from lib.rs: a failed envelope carrying
the given message. -/
def create_error_result (error_message : String) : PythonResult :=
  { success := false, data := none, error := some error_message }

/-- Constant `NULL_ARG` from lib.rs. -/
def NULL_ARG : String := "null"

/-- Constant `HECRAS_PROCESSOR_SCRIPT` from lib.rs. -/
def HECRAS_PROCESSOR_SCRIPT : String := "HECRAS-HDF/hecras_processor.py"

/-- Helper `terrain_arg_or_null` from lib.rs: the terrain path if
present, the sentinel `"null"` otherwise. -/
def terrain_arg_or_null (terrain_file_path : Option String) : String :=
  match terrain_file_path with
  | some p => p
  | none => NULL_ARG

/-- Outcome of `cmd.output()`: either the child ran to completion
(`exitSuccess` models `status.success()`, i.e. exit code zero, with raw
stdout/stderr byte streams), or the spawn itself failed with an OS error
rendered as text. -/
inductive SpawnOutcome where
  | completed (exitSuccess : Bool) (stdoutBytes stderrBytes : List Nat)
  | spawnErr (osError : String)
deriving DecidableEq, Repr

/-- A record of one attempted child-process invocation: the script path
given to the interpreter and the encoded positional arguments. -/
structure SpawnCall where
  scriptPath : FsPath
  args : List String
deriving DecidableEq, Repr

/-- The ambient effects the bridge reads: the process working directory,
filesystem existence, the outcome the OS would give to a spawn attempt,
and the outcome of `std::fs::write` (error already rendered to `String`,
as the code does with `map_err(|e| e.to_string())`). -/
structure Env where
  currentDir : FsPath
  fsExists : FsPath → Bool
  spawn : SpawnOutcome
  fsWrite : String → String → Except String Unit

/-- Checks that a byte is a UTF-8 continuation byte. -/
def contOk (b : Nat) : Bool := decide (0x80 ≤ b ∧ b ≤ 0xBF)

/-- Decodes one scalar value from a lead byte and the remaining bytes,
following the maximal-subpart substitution of `String::from_utf8_lossy`:
an ill-formed sequence yields U+FFFD and decoding resumes at the first
byte that broke the sequence. Returns the scalar and the rest. -/
def utf8DecodeOne (b : Nat) (rest : List Nat) : Nat × List Nat :=
  if b < 0x80 then (b, rest)
  else if 0xC2 ≤ b ∧ b ≤ 0xDF then
    match rest with
    | b1 :: r1 =>
      if contOk b1 then ((b - 0xC0) * 64 + (b1 - 0x80), r1) else (0xFFFD, rest)
    | [] => (0xFFFD, [])
  else if 0xE0 ≤ b ∧ b ≤ 0xEF then
    let lo1 := if b = 0xE0 then 0xA0 else 0x80
    let hi1 := if b = 0xED then 0x9F else 0xBF
    match rest with
    | b1 :: r1 =>
      if lo1 ≤ b1 ∧ b1 ≤ hi1 then
        match r1 with
        | b2 :: r2 =>
          if contOk b2 then
            ((b - 0xE0) * 4096 + (b1 - 0x80) * 64 + (b2 - 0x80), r2)
          else (0xFFFD, r1)
        | [] => (0xFFFD, [])
      else (0xFFFD, rest)
    | [] => (0xFFFD, [])
  else if 0xF0 ≤ b ∧ b ≤ 0xF4 then
    let lo1 := if b = 0xF0 then 0x90 else 0x80
    let hi1 := if b = 0xF4 then 0x8F else 0xBF
    match rest with
    | b1 :: r1 =>
      if lo1 ≤ b1 ∧ b1 ≤ hi1 then
        match r1 with
        | b2 :: r2 =>
          if contOk b2 then
            match r2 with
            | b3 :: r3 =>
              if contOk b3 then
                ((b - 0xF0) * 262144 + (b1 - 0x80) * 4096
                  + (b2 - 0x80) * 64 + (b3 - 0x80), r3)
              else (0xFFFD, r2)
            | [] => (0xFFFD, [])
          else (0xFFFD, r1)
        | [] => (0xFFFD, [])
      else (0xFFFD, rest)
    | [] => (0xFFFD, [])
  else (0xFFFD, rest)

/-- Fuelled decoding loop; every step consumes at least the lead byte, so
fuel equal to the byte count suffices. -/
def utf8LossyChars : Nat → List Nat → List Char
  | 0, _ => []
  | _, [] => []
  | fuel + 1, b :: rest =>
    let p := utf8DecodeOne b rest
    Char.ofNat p.1 :: utf8LossyChars fuel p.2

/-- Models `String::from_utf8_lossy(bytes).to_string()`: total on all
byte lists, replacing ill-formed sequences with U+FFFD instead of
failing. -/
def utf8Lossy (bs : List Nat) : String := String.mk (utf8LossyChars bs.length bs)

/-- The backend-locator logic inlined at the top of
`execute_python_script`: current directory first, then the parent, then
the unconditional `../src-python` fallback. -/
def locateBackend (fs : FsPath → Bool) (current_dir : FsPath) : FsPath :=
  if fs (current_dir.child "src-python") then current_dir.child "src-python"
  else
    match current_dir.parent with
    | some p =>
      if fs (p.child "src-python") then p.child "src-python"
      else current_dir.child "../src-python"
    | none => current_dir.child "../src-python"

/-- Function `execute_python_script` from lib.rs: resolve the backend
directory, check it and the script exist, spawn the interpreter on the
script with the encoded arguments, and classify the outcome into an
envelope. Also returns the list of spawn attempts made (empty when an
existence check fails first). -/
def execute_python_script (env : Env) (script_name : String) (args : List String) :
    PythonResult × List SpawnCall :=
  let backend_path := locateBackend env.fsExists env.currentDir
  let script_path := backend_path.child script_name
  if env.fsExists backend_path = false then
    ({ success := false, data := none,
       error := some ("Python backend directory not found: " ++ pathDebug backend_path) }, [])
  else if env.fsExists script_path = false then
    ({ success := false, data := none,
       error := some ("Python script not found: " ++ pathDebug script_path) }, [])
  else
    match env.spawn with
    | .completed true so _ =>
      ({ success := true, data := some (utf8Lossy so), error := none },
       [⟨script_path, args⟩])
    | .completed false _ se =>
      ({ success := false, data := none, error := some (utf8Lossy se) },
       [⟨script_path, args⟩])
    | .spawnErr e =>
      ({ success := false, data := none,
         error := some ("Failed to execute Python script: " ++ e) },
       [⟨script_path, args⟩])

/-- Wraps a script invocation the way every non-throwing Tauri command
does: `Ok(result)`. -/
def invokeOk (env : Env) (script_name : String) (args : List String) :
    Except String PythonResult × List SpawnCall :=
  let r := execute_python_script env script_name args
  (Except.ok r.1, r.2)

/-- Command `read_hdf_file_info`. -/
def read_hdf_file_info (env : Env) (file_path : String) :
    Except String PythonResult × List SpawnCall :=
  invokeOk env "hdf_reader.py" [file_path, "info"]

/-- Command `extract_manning_values`: the terrain parameter is accepted
but never forwarded; the wire args are the hdf path alone. -/
def extract_manning_values (env : Env) (hdf_file_path : String)
    (_terrain_file_path : Option String) :
    Except String PythonResult × List SpawnCall :=
  invokeOk env "manning_extractor.py" [hdf_file_path]

/-- Command `create_spline_from_points`: writes the points to the fixed
temp file; a write failure is propagated with `?` as a command-level
error (not an envelope). The best-effort temp-file removal has no
observable effect in this model. -/
def create_spline_from_points (env : Env) (points_json : String) :
    Except String PythonResult × List SpawnCall :=
  match env.fsWrite "temp_points.json" points_json with
  | .error e => (Except.error e, [])
  | .ok _ =>
    let r := execute_python_script env "geometry_tools.py" ["spline", "temp_points.json"]
    (Except.ok r.1, r.2)

/-- Exact decimal numbers `mant / 10 ^ exp`, standing in for the `f64`
command parameters. The bridge only ever renders such values with
Rust Display formatting; `decToString` below models that formatting
on values whose shortest round-tripping decimal form is their exact
decimal expansion (true of every value used in the claims). -/
structure Dec where
  mant : Int
  exp : Nat
deriving DecidableEq, Repr

/-- Drops trailing zero characters. -/
def trimTrailingZeros (s : String) : String :=
  String.mk ((s.data.reverse.dropWhile (fun c => c = '0')).reverse)

/-- Models Rust `f64` Display (`to_string`) on exact decimals: minimal
digit form, no trailing zeros, no decimal point for integers
(for example 2.0 renders as "2" and 1.5 as "1.5"). -/
def decToString (d : Dec) : String :=
  let sign := if d.mant < 0 then "-" else ""
  let m := d.mant.natAbs
  let p := 10 ^ d.exp
  let ip := m / p
  let fr := m % p
  let frStr := String.mk (List.replicate (d.exp - (toString fr).length) '0') ++ toString fr
  let frTrim := trimTrailingZeros frStr
  if frTrim = "" then sign ++ toString ip else sign ++ toString ip ++ "." ++ frTrim

/-- Command `generate_cross_sections`: writes the axis to the fixed temp
file (write failure propagated with `?`), then encodes
`["sections", temp, spacing, width]`. -/
def generate_cross_sections (env : Env) (axis_json : String) (spacing width : Dec) :
    Except String PythonResult × List SpawnCall :=
  match env.fsWrite "temp_axis.json" axis_json with
  | .error e => (Except.error e, [])
  | .ok _ =>
    let r := execute_python_script env "geometry_tools.py"
      ["sections", "temp_axis.json", decToString spacing, decToString width]
    (Except.ok r.1, r.2)

/-- Command `calculate_froude_number`. -/
def calculate_froude_number (env : Env) (velocity depth : Dec) :
    Except String PythonResult × List SpawnCall :=
  invokeOk env "hydraulic_calc.py" ["froude", decToString velocity, decToString depth]

/-- The fixed cancellation message shared by the interactive export
commands. -/
def cancelMsg : String := "Exportación cancelada por el usuario"

/-- Command `export_hdf_to_csv`. The blocking save dialog is the
`savePath` argument: `none` models the user cancelling. -/
def export_hdf_to_csv (env : Env) (file_path dataset_path : String)
    (savePath : Option String) :
    Except String PythonResult × List SpawnCall :=
  match savePath with
  | some path =>
    invokeOk env "hdf_data_extractor.py" [file_path, "export_csv", dataset_path, path]
  | none =>
    (Except.ok { success := false, data := none, error := some cancelMsg }, [])

/-- Command `export_hdf_to_json`, same dialog protocol as the CSV
export. -/
def export_hdf_to_json (env : Env) (file_path dataset_path : String)
    (savePath : Option String) :
    Except String PythonResult × List SpawnCall :=
  match savePath with
  | some path =>
    invokeOk env "hdf_data_extractor.py" [file_path, "export_json", dataset_path, path]
  | none =>
    (Except.ok { success := false, data := none, error := some cancelMsg }, [])

/-- Argument building of command `process_pyhmt2d`: start from
`[operation, hdfFile]` and push per-operation extras. -/
def process_pyhmt2d_args (operation hdfFile : String) (cellId : Option Int)
    (outputDirectory terrainFile : Option String) : List String :=
  let args := [operation, hdfFile]
  match operation with
  | "process" =>
    args ++ [match terrainFile with | some terrain => terrain | none => "null"]
  | "hydrograph" =>
    args ++ [match cellId with | some cell => toString cell | none => "0"]
         ++ [match terrainFile with | some terrain => terrain | none => "null"]
  | "depth_map" | "profile" =>
    args ++ [match terrainFile with | some terrain => terrain | none => "null"]
  | "export_vtk" =>
    args ++ [match outputDirectory with | some od => od | none => "temp"]
         ++ [match terrainFile with | some terrain => terrain | none => "null"]
  | _ =>
    args ++ [match terrainFile with | some terrain => terrain | none => "null"]

/-- Command `process_pyhmt2d`. -/
def process_pyhmt2d (env : Env) (operation hdfFile : String) (cellId : Option Int)
    (outputDirectory terrainFile : Option String) :
    Except String PythonResult × List SpawnCall :=
  invokeOk env HECRAS_PROCESSOR_SCRIPT
    (process_pyhmt2d_args operation hdfFile cellId outputDirectory terrainFile)

/-- Command `export_to_vtk_py_hmt2_d`. The blocking folder-pick dialog is
the `outputFolder` argument: `none` models the user cancelling. Note the
destination path sits between the hdf path and the terrain/export-type
tokens. -/
def export_to_vtk_py_hmt2_d (env : Env) (hdf_file_path : String)
    (terrain_file_path export_type : Option String) (outputFolder : Option String) :
    Except String PythonResult × List SpawnCall :=
  match outputFolder with
  | some path =>
    let terrain_arg := terrain_arg_or_null terrain_file_path
    let export_type_arg := match export_type with | some t => t | none => "all_timesteps"
    invokeOk env HECRAS_PROCESSOR_SCRIPT
      ["export_vtk", hdf_file_path, path, terrain_arg, export_type_arg]
  | none => (Except.ok (create_error_result cancelMsg), [])

/-- Command `export_hydrograph_data`: fixed four tokens, then the
boundary conditions pushed in order by the for loop. -/
def export_hydrograph_data (env : Env) (hdf_file_path : String)
    (boundary_conditions : List String) (output_path fmt : String) :
    Except String PythonResult × List SpawnCall :=
  let args := boundary_conditions.foldl (fun a bc => a ++ [bc])
    ["export_hydrograph", hdf_file_path, output_path, fmt]
  invokeOk env "hydrograph_exporter.py" args

/-- Option-level envelope invariant: on success the data field is
populated and the error field absent; on failure the error field is
populated and the data field absent. -/
def envelopeOk (r : PythonResult) : Bool :=
  if r.success then r.data.isSome && r.error.isNone
  else r.error.isSome && r.data.isNone

/-- A string option that is populated with a non-empty string. -/
def optNonEmptyStr : Option String → Bool
  | some s => !(s == "")
  | none => false

/-- The strict envelope invariant as the claim words it: the populated
side must also be a non-empty string. -/
def envelopeStrict (r : PythonResult) : Bool :=
  if r.success then optNonEmptyStr r.data && r.error.isNone
  else optNonEmptyStr r.error && r.data.isNone

/-- Lifts `envelopeOk` over a command result: a thrown command error has
no envelope to check. -/
def exceptEnvOk : Except String PythonResult → Bool
  | .ok r => envelopeOk r
  | .error _ => true

/-- Test environment where every path exists, the child exits 0 with
empty output streams, and temp-file writes succeed. -/
def envTotal : Env :=
  { currentDir := .root "app"
  , fsExists := fun _ => true
  , spawn := .completed true [] []
  , fsWrite := fun _ _ => .ok () }

/-- Test environment where no path exists. -/
def envNone : Env :=
  { currentDir := .root "app"
  , fsExists := fun _ => false
  , spawn := .completed true [] []
  , fsWrite := fun _ _ => .ok () }

/-- Test environment where the temp-file write fails. -/
def envBadWrite : Env :=
  { currentDir := .root "app"
  , fsExists := fun _ => true
  , spawn := .completed true [] []
  , fsWrite := fun _ _ => .error "disk full" }

/-- UTF-8 bytes of the text the froude scenario backend writes to
standard output. -/
def froudeBytes : List Nat :=
  [123, 34, 102, 114, 111, 117, 100, 101, 34, 58, 49, 46, 54, 51, 125]

/-- Test environment whose backend writes the froude JSON payload and
exits 0. -/
def envFroude : Env :=
  { currentDir := .root "app"
  , fsExists := fun _ => true
  , spawn := .completed true froudeBytes []
  , fsWrite := fun _ _ => .ok () }

/-- Test environment whose backend writes the two bytes of "hi" and
exits 0. -/
def envHi : Env :=
  { currentDir := .root "app"
  , fsExists := fun _ => true
  , spawn := .completed true [104, 105] []
  , fsWrite := fun _ _ => .ok () }

/-- Checks whether a command result is an `Ok` (envelope returned) as
opposed to a thrown command-level error. -/
def exceptIsOk : Except String PythonResult → Bool
  | .ok _ => true
  | .error _ => false

deriving instance DecidableEq for Except

/-- Every invocation attempt of `execute_python_script` either spawns
nothing (an existence check failed first) or spawns exactly the resolved
script path with the given arguments. -/
theorem execute_trace_cases (env : Env) (s : String) (a : List String) :
    (execute_python_script env s a).2 = [] ∨
    (execute_python_script env s a).2 =
      [⟨(locateBackend env.fsExists env.currentDir).child s, a⟩] := by
  simp only [execute_python_script]
  split_ifs with h1 h2
  · exact Or.inl rfl
  · exact Or.inl rfl
  · rcases hsp : env.spawn with ⟨es, so, se⟩ | e
    · cases es <;> simp [hsp]
    · simp [hsp]

/-- The envelope built by `execute_python_script` always satisfies the
option-level invariant. -/
theorem execute_envelopeOk (env : Env) (s : String) (a : List String) :
    envelopeOk (execute_python_script env s a).1 = true := by
  simp only [execute_python_script]
  split_ifs with h1 h2
  · rfl
  · rfl
  · rcases hsp : env.spawn with ⟨es, so, se⟩ | e
    · cases es <;> simp [hsp, envelopeOk]
    · simp [hsp, envelopeOk]

/-- Any property holding of the one possible spawn call holds of every
recorded spawn of `invokeOk`. -/
theorem invokeOk_trace_all (env : Env) (s : String) (a : List String)
    (P : SpawnCall → Bool)
    (hP : P ⟨(locateBackend env.fsExists env.currentDir).child s, a⟩ = true) :
    ((invokeOk env s a).2).all P = true := by
  show ((execute_python_script env s a).2).all P = true
  rcases execute_trace_cases env s a with h | h <;> rw [h] <;> simp [hP]

/-- Pushing elements one by one onto a list is list concatenation. -/
theorem foldl_push_eq_append (l init : List String) :
    l.foldl (fun a x => a ++ [x]) init = init ++ l := by
  induction l generalizing init with
  | nil => simp
  | cons x xs ih => simp [List.foldl, ih]

/-- C3: the combined hydraulic-processing operation encodes
`[op, hdf, terrain-or-null]` for `process`, `depth_map`, `profile` and
any unrecognized operation; `[op, hdf, cell-or-0, terrain-or-null]` for
`hydrograph`; `[op, hdf, dir-or-temp, terrain-or-null]` for
`export_vtk`; an absent terrain is always the literal sentinel
`"null"`. -/
theorem C3_pyhmt2d_encoding :
    ∀ (op h : String) (c : Option Int) (d t : Option String),
      process_pyhmt2d_args op h c d t =
        if op = "hydrograph" then
          [op, h, (c.map (fun i => toString i)).getD "0", t.getD "null"]
        else if op = "export_vtk" then
          [op, h, d.getD "temp", t.getD "null"]
        else
          [op, h, t.getD "null"] := by
  intro op h c d t
  unfold process_pyhmt2d_args
  split
  · cases t <;> simp
  · cases t <;> cases c <;> simp
  · cases t <;> simp
  · cases t <;> simp
  · cases t <;> cases d <;> simp
  · rename_i hp hh hdm hpr hv
    rw [if_neg hh, if_neg hv]
    cases t <;> simp

/-- C5: when the interactive selection reports no choice, each export
command returns the fixed cancellation envelope (success false, data
absent, error the cancellation message) and records zero spawn calls,
never reaching the process invoker. -/
theorem C5_cancellation_short_circuit :
    (∀ (env : Env) (fp dp : String),
      export_hdf_to_csv env fp dp none =
        (Except.ok { success := false, data := none, error := some cancelMsg }, [])) ∧
    (∀ (env : Env) (fp dp : String),
      export_hdf_to_json env fp dp none =
        (Except.ok { success := false, data := none, error := some cancelMsg }, [])) ∧
    (∀ (env : Env) (h : String) (t et : Option String),
      export_to_vtk_py_hmt2_d env h t et none =
        (Except.ok { success := false, data := none, error := some cancelMsg }, [])) :=
  ⟨fun _ _ _ => rfl, fun _ _ _ => rfl, fun _ _ _ _ => rfl⟩

/-- C7: the Manning-value extraction always encodes exactly the single
token `[hdf_file_path]`: the result is independent of the accepted
terrain parameter, every recorded spawn carries exactly that one
argument, and in the all-paths-exist environment the spawn is the
manning extractor script with `[hdf_file_path]`. -/
theorem C7_manning_terrain_dropped :
    ∀ (env : Env) (h : String) (t : Option String),
      extract_manning_values env h t = extract_manning_values env h none ∧
      ((extract_manning_values env h t).2).all (fun sc => sc.args == [h]) = true ∧
      (extract_manning_values envTotal h t).2 =
        [⟨((FsPath.root "app").child "src-python").child "manning_extractor.py", [h]⟩] := by
  intro env h t
  refine ⟨rfl, ?_, rfl⟩
  exact invokeOk_trace_all env "manning_extractor.py" [h] _ (by simp)

/-- C8: the Froude operation at velocity 2.0 and depth 1.5 encodes
exactly the tokens froude, 2, 1.5 (canonical decimal forms) and, against
a backend that prints the froude JSON payload and exits 0, returns a
success envelope whose data is that payload and whose error is absent. -/
theorem C8_froude_end_to_end :
    calculate_froude_number envFroude ⟨20, 1⟩ ⟨15, 1⟩ =
      (Except.ok { success := true, data := some "\x7b\"froude\":1.63\x7d", error := none },
       [⟨((FsPath.root "app").child "src-python").child "hydraulic_calc.py",
         ["froude", "2", "1.5"]⟩]) := by
  decide

/-- C10: the hydrograph batch export encodes exactly
`["export_hydrograph", hdf, output, format]` followed by the boundary
conditions in their given order; with an empty list exactly the four
fixed tokens remain. -/
theorem C10_export_hydrograph_tokens :
    ∀ (env : Env) (h o f : String) (bcs : List String),
      ((export_hydrograph_data env h bcs o f).2).all
        (fun sc => sc.args == ["export_hydrograph", h, o, f] ++ bcs) = true ∧
      (export_hydrograph_data envTotal h bcs o f).2 =
        [⟨((FsPath.root "app").child "src-python").child "hydrograph_exporter.py",
          ["export_hydrograph", h, o, f] ++ bcs⟩] ∧
      (export_hydrograph_data envTotal h [] o f).2 =
        [⟨((FsPath.root "app").child "src-python").child "hydrograph_exporter.py",
          ["export_hydrograph", h, o, f]⟩] := by
  intro env h o f bcs
  refine ⟨?_, ?_, rfl⟩
  · unfold export_hydrograph_data
    exact invokeOk_trace_all env "hydrograph_exporter.py" _ _
      (by simp [foldl_push_eq_append])
  · show (invokeOk envTotal "hydrograph_exporter.py"
      (bcs.foldl (fun a bc => a ++ [bc]) ["export_hydrograph", h, o, f])).2 = _
    rw [foldl_push_eq_append]
    rfl

/-- C4 (amended part none; claim as stated): the locator prefers
`working_dir/src-python` when it exists, else the parent's `src-python`
when the parent exists and holds it, else the unconditional
`working_dir/../src-python` fallback; and when the resolved directory
does not exist the operation returns a success-false envelope whose
error is the backend-directory-not-found message carrying the attempted
path, with no spawn and no crash. -/
theorem C4_backend_locator_order_and_error :
    (∀ (fs : FsPath → Bool) (w : FsPath),
      (fs (w.child "src-python") = true → locateBackend fs w = w.child "src-python") ∧
      (∀ p, fs (w.child "src-python") = false → w.parent = some p →
        fs (p.child "src-python") = true → locateBackend fs w = p.child "src-python") ∧
      (fs (w.child "src-python") = false →
        (∀ p, w.parent = some p → fs (p.child "src-python") = false) →
        locateBackend fs w = w.child "../src-python")) ∧
    (∀ (env : Env) (s : String) (a : List String),
      env.fsExists (locateBackend env.fsExists env.currentDir) = false →
      execute_python_script env s a =
        ({ success := false, data := none,
           error := some ("Python backend directory not found: "
             ++ pathDebug (locateBackend env.fsExists env.currentDir)) }, [])) := by
  constructor
  · intro fs w
    refine ⟨?_, ?_, ?_⟩
    · intro h1
      simp [locateBackend, h1]
    · intro p h1 h2 h3
      simp [locateBackend, h1, h2, h3]
    · intro h1 h2
      rcases hp : w.parent with _ | p
      · simp [locateBackend, h1, hp]
      · simp [locateBackend, h1, hp, h2 p hp]
  · intro env s a h
    simp [execute_python_script, h]

/-- C4 witness: with a rooted working directory and nothing on disk, the
locator lands on the fallback and the script runner reports the
backend-directory-not-found envelope naming that path. -/
theorem C4_backend_locator_witness :
    locateBackend (fun _ => false) (FsPath.root "app")
        = (FsPath.root "app").child "../src-python" ∧
    execute_python_script envNone "hdf_reader.py" ["a.hdf", "info"] =
      ({ success := false, data := none,
         error := some "Python backend directory not found: \"app/../src-python\"" }, []) := by
  constructor
  · exact (C4_backend_locator_order_and_error.1 (fun _ => false) (FsPath.root "app")).2.2 rfl
      (fun p hp => by simp [FsPath.parent] at hp)
  · have h := C4_backend_locator_order_and_error.2 envNone "hdf_reader.py" ["a.hdf", "info"] rfl
    rw [h]
    rfl

/-- C6: once the backend directory and script exist, the spawned
process outcome is classified as follows: exit code zero gives a success
envelope whose data is the permissively decoded standard output; a
non-zero exit gives a failure envelope whose error is the decoded
standard error; a spawn-level failure gives a failure envelope whose
message names the OS error. The decoder never fails on malformed bytes:
it replaces them, as the trailing concrete conjunct shows. -/
theorem C6_outcome_classification :
    (∀ (env : Env) (s : String) (a : List String),
      env.fsExists (locateBackend env.fsExists env.currentDir) = true →
      env.fsExists ((locateBackend env.fsExists env.currentDir).child s) = true →
      ((∀ so se, env.spawn = .completed true so se →
          execute_python_script env s a =
            ({ success := true, data := some (utf8Lossy so), error := none },
             [⟨(locateBackend env.fsExists env.currentDir).child s, a⟩])) ∧
       (∀ so se, env.spawn = .completed false so se →
          execute_python_script env s a =
            ({ success := false, data := none, error := some (utf8Lossy se) },
             [⟨(locateBackend env.fsExists env.currentDir).child s, a⟩])) ∧
       (∀ e, env.spawn = .spawnErr e →
          execute_python_script env s a =
            ({ success := false, data := none,
               error := some ("Failed to execute Python script: " ++ e) },
             [⟨(locateBackend env.fsExists env.currentDir).child s, a⟩])))) ∧
    utf8Lossy [255, 65] = "�A" := by
  constructor
  · intro env s a h1 h2
    refine ⟨?_, ?_, ?_⟩
    · intro so se hsp
      simp [execute_python_script, h1, h2, hsp]
    · intro so se hsp
      simp [execute_python_script, h1, h2, hsp]
    · intro e hsp
      simp [execute_python_script, h1, h2, hsp]
  · decide

/-- C6 witness: a concrete environment whose child exits 0 printing the
two bytes of "hi" yields the success envelope with data "hi". -/
theorem C6_outcome_classification_witness :
    execute_python_script envHi "hydraulic_calc.py" ["froude", "2", "1.5"] =
      ({ success := true, data := some "hi", error := none },
       [⟨((FsPath.root "app").child "src-python").child "hydraulic_calc.py",
         ["froude", "2", "1.5"]⟩]) := by
  have h := ((C6_outcome_classification.1 envHi "hydraulic_calc.py" ["froude", "2", "1.5"]
      rfl rfl).1 [104, 105] [] rfl)
  rw [h]
  rfl

/-- C1 counterexample: a backend that exits 0 while printing nothing
yields a success envelope whose data is the empty string, so the data
field is populated but not non-empty as the claim demands. -/
theorem C1_strict_nonempty_counterexample :
    (read_hdf_file_info envTotal "a.hdf").1 =
      Except.ok { success := true, data := some "", error := none } ∧
    envelopeStrict { success := true, data := some "", error := none } = false := by
  exact ⟨rfl, rfl⟩

/-- C1 amended: exactly one of data/error is populated according to the
success flag, though the populated string may be empty when the child
prints nothing on the corresponding stream; every modelled operation
that returns an envelope obeys this, and cancellation returns success
false, data absent and the fixed cancellation message. -/
theorem C1_envelope_invariant_amended :
    (∀ (env : Env) (s : String) (a : List String),
      envelopeOk (execute_python_script env s a).1 = true) ∧
    (∀ (env : Env) (fp : String), exceptEnvOk (read_hdf_file_info env fp).1 = true) ∧
    (∀ (env : Env) (h : String) (t : Option String),
      exceptEnvOk (extract_manning_values env h t).1 = true) ∧
    (∀ (env : Env) (pj : String), exceptEnvOk (create_spline_from_points env pj).1 = true) ∧
    (∀ (env : Env) (aj : String) (sp w : Dec),
      exceptEnvOk (generate_cross_sections env aj sp w).1 = true) ∧
    (∀ (env : Env) (v d : Dec), exceptEnvOk (calculate_froude_number env v d).1 = true) ∧
    (∀ (env : Env) (fp dp : String) (sel : Option String),
      exceptEnvOk (export_hdf_to_csv env fp dp sel).1 = true) ∧
    (∀ (env : Env) (fp dp : String) (sel : Option String),
      exceptEnvOk (export_hdf_to_json env fp dp sel).1 = true) ∧
    (∀ (env : Env) (op h : String) (c : Option Int) (d t : Option String),
      exceptEnvOk (process_pyhmt2d env op h c d t).1 = true) ∧
    (∀ (env : Env) (h : String) (t et sel : Option String),
      exceptEnvOk (export_to_vtk_py_hmt2_d env h t et sel).1 = true) ∧
    (∀ (env : Env) (h : String) (bcs : List String) (o f : String),
      exceptEnvOk (export_hydrograph_data env h bcs o f).1 = true) ∧
    (∀ (env : Env) (fp dp : String),
      (export_hdf_to_csv env fp dp none).1 =
        Except.ok { success := false, data := none, error := some cancelMsg } ∧
      (export_hdf_to_json env fp dp none).1 =
        Except.ok { success := false, data := none, error := some cancelMsg }) ∧
    (∀ (env : Env) (h : String) (t et : Option String),
      (export_to_vtk_py_hmt2_d env h t et none).1 =
        Except.ok { success := false, data := none, error := some cancelMsg }) ∧
    envelopeOk { success := false, data := none, error := some cancelMsg } = true := by
  refine ⟨fun env s a => execute_envelopeOk env s a,
    fun env fp => execute_envelopeOk env _ _,
    fun env h t => execute_envelopeOk env _ _,
    ?_, ?_,
    fun env v d => execute_envelopeOk env _ _,
    ?_, ?_,
    fun env op h c d t => execute_envelopeOk env _ _,
    ?_,
    fun env h bcs o f => execute_envelopeOk env _ _,
    fun env fp dp => ⟨rfl, rfl⟩,
    fun env h t et => rfl,
    rfl⟩
  · intro env pj
    rcases hw : env.fsWrite "temp_points.json" pj with e | u
    · simp [create_spline_from_points, hw, exceptEnvOk]
    · simpa [create_spline_from_points, hw, exceptEnvOk] using execute_envelopeOk env _ _
  · intro env aj sp w
    rcases hw : env.fsWrite "temp_axis.json" aj with e | u
    · simp [generate_cross_sections, hw, exceptEnvOk]
    · simpa [generate_cross_sections, hw, exceptEnvOk] using execute_envelopeOk env _ _
  · intro env fp dp sel
    cases sel
    · rfl
    · exact execute_envelopeOk env _ _
  · intro env fp dp sel
    cases sel
    · rfl
    · exact execute_envelopeOk env _ _
  · intro env h t et sel
    cases sel
    · rfl
    · exact execute_envelopeOk env _ _

/-- C2 counterexample: when writing the transient temp file fails, the
spline command propagates the write error as a thrown command-level
error instead of returning a Result Envelope, and never spawns the
backend. -/
theorem C2_temp_write_error_escapes :
    (create_spline_from_points envBadWrite "[]").1 = Except.error "disk full" ∧
    exceptIsOk (create_spline_from_points envBadWrite "[]").1 = false ∧
    (create_spline_from_points envBadWrite "[]").2 = [] := by
  exact ⟨rfl, rfl, rfl⟩

/-- C2 amended: every failure mode of every modelled operation resolves
to a populated Result Envelope, with one exception: a failure writing
the transient temp file in the spline and cross-section operations is
propagated past the bridge boundary as a command-level error carrying
the write error text. When the temp write succeeds those two operations
also resolve to envelopes. -/
theorem C2_no_throw_amended :
    (∀ (env : Env) (fp : String),
      (read_hdf_file_info env fp).1 =
        Except.ok (execute_python_script env "hdf_reader.py" [fp, "info"]).1) ∧
    (∀ (env : Env) (h : String) (t : Option String),
      exceptIsOk (extract_manning_values env h t).1 = true) ∧
    (∀ (env : Env) (v d : Dec), exceptIsOk (calculate_froude_number env v d).1 = true) ∧
    (∀ (env : Env) (fp dp : String) (sel : Option String),
      exceptIsOk (export_hdf_to_csv env fp dp sel).1 = true) ∧
    (∀ (env : Env) (fp dp : String) (sel : Option String),
      exceptIsOk (export_hdf_to_json env fp dp sel).1 = true) ∧
    (∀ (env : Env) (op h : String) (c : Option Int) (d t : Option String),
      exceptIsOk (process_pyhmt2d env op h c d t).1 = true) ∧
    (∀ (env : Env) (h : String) (t et sel : Option String),
      exceptIsOk (export_to_vtk_py_hmt2_d env h t et sel).1 = true) ∧
    (∀ (env : Env) (h : String) (bcs : List String) (o f : String),
      exceptIsOk (export_hydrograph_data env h bcs o f).1 = true) ∧
    (∀ (env : Env) (pj : String), env.fsWrite "temp_points.json" pj = Except.ok () →
      exceptIsOk (create_spline_from_points env pj).1 = true) ∧
    (∀ (env : Env) (aj : String) (sp w : Dec),
      env.fsWrite "temp_axis.json" aj = Except.ok () →
      exceptIsOk (generate_cross_sections env aj sp w).1 = true) ∧
    (∀ (env : Env) (pj e : String), env.fsWrite "temp_points.json" pj = Except.error e →
      (create_spline_from_points env pj).1 = Except.error e) ∧
    (∀ (env : Env) (aj e : String) (sp w : Dec),
      env.fsWrite "temp_axis.json" aj = Except.error e →
      (generate_cross_sections env aj sp w).1 = Except.error e) := by
  refine ⟨fun env fp => rfl,
    fun env h t => rfl,
    fun env v d => rfl,
    ?_, ?_,
    fun env op h c d t => rfl,
    ?_, fun env h bcs o f => rfl, ?_, ?_, ?_, ?_⟩
  · intro env fp dp sel
    cases sel <;> rfl
  · intro env fp dp sel
    cases sel <;> rfl
  · intro env h t et sel
    cases sel <;> rfl
  · intro env pj hw
    simp [create_spline_from_points, hw, exceptIsOk]
  · intro env aj sp w hw
    simp [generate_cross_sections, hw, exceptIsOk]
  · intro env pj e hw
    simp [create_spline_from_points, hw]
  · intro env aj e sp w hw
    simp [generate_cross_sections, hw]

/-- C2 witness: with a successful temp write the spline command returns
an envelope; with a failing temp write it throws the write error. -/
theorem C2_no_throw_amended_witness :
    exceptIsOk (create_spline_from_points envTotal "[]").1 = true ∧
    (create_spline_from_points envBadWrite "[]").1 = Except.error "disk full" := by
  constructor
  · exact C2_no_throw_amended.2.2.2.2.2.2.2.2.1 envTotal "[]" rfl
  · exact C2_no_throw_amended.2.2.2.2.2.2.2.2.2.2.1 envBadWrite "[]" "disk full" rfl

/-- C9 counterexample: the VTK export with a chosen destination spawns
arguments whose final token is the export type, not the destination, so
the destination is not the final token as the claim states. -/
theorem C9_vtk_destination_not_last :
    ((export_to_vtk_py_hmt2_d envTotal "h.hdf" none none (some "/out")).2).all
      (fun sc => sc.args.getLast? == some "/out") = false ∧
    (export_to_vtk_py_hmt2_d envTotal "h.hdf" none none (some "/out")).2 =
      [⟨((FsPath.root "app").child "src-python").child "HECRAS-HDF/hecras_processor.py",
        ["export_vtk", "h.hdf", "/out", "null", "all_timesteps"]⟩] := by
  exact ⟨rfl, rfl⟩

/-- C9 amended: once the selection resolves, the CSV and JSON exports
append the chosen destination as the final token; the VTK export instead
places it as the third token (immediately after the hdf path), followed
by the terrain sentinel and the export-type token. -/
theorem C9_destination_token_amended :
    (∀ (env : Env) (fp dp p : String),
      ((export_hdf_to_csv env fp dp (some p)).2).all
        (fun sc => sc.args.getLast? == some p) = true) ∧
    (∀ (env : Env) (fp dp p : String),
      ((export_hdf_to_json env fp dp (some p)).2).all
        (fun sc => sc.args.getLast? == some p) = true) ∧
    (∀ (fp dp p : String),
      (export_hdf_to_csv envTotal fp dp (some p)).2 =
        [⟨((FsPath.root "app").child "src-python").child "hdf_data_extractor.py",
          [fp, "export_csv", dp, p]⟩]) ∧
    (∀ (fp dp p : String),
      (export_hdf_to_json envTotal fp dp (some p)).2 =
        [⟨((FsPath.root "app").child "src-python").child "hdf_data_extractor.py",
          [fp, "export_json", dp, p]⟩]) ∧
    (∀ (env : Env) (h p : String) (t et : Option String),
      ((export_to_vtk_py_hmt2_d env h t et (some p)).2).all
        (fun sc => sc.args.get? 2 == some p) = true) ∧
    (∀ (h p : String) (t et : Option String),
      (export_to_vtk_py_hmt2_d envTotal h t et (some p)).2 =
        [⟨((FsPath.root "app").child "src-python").child "HECRAS-HDF/hecras_processor.py",
          ["export_vtk", h, p, terrain_arg_or_null t,
           (et.getD "all_timesteps")]⟩]) := by
  refine ⟨?_, ?_, fun fp dp p => rfl, fun fp dp p => rfl, ?_, ?_⟩
  · intro env fp dp p
    exact invokeOk_trace_all env "hdf_data_extractor.py" _ _ (by simp)
  · intro env fp dp p
    exact invokeOk_trace_all env "hdf_data_extractor.py" _ _ (by simp)
  · intro env h p t et
    exact invokeOk_trace_all env HECRAS_PROCESSOR_SCRIPT _ _ (by simp)
  · intro h p t et
    cases et <;> rfl
